import Mathlib

/-!
Verification development for the CloudRAMSaaS backend.

The definitions below are a shallow embedding of the repository sources:
  aws_manager.py            (EC2 instance lookup and lifecycle)
  main.py                   (FastAPI endpoints: allocate, stop_vm, terminate_vm,
                             vscode_setup_on_vm polling)
  process_manager.py        (migration pipeline, tracked-file sync)
  vm_scripts/vm_server.py   (remote agent: job table, project-root
                             normalization, job status endpoint)

External effects (AWS describe/run/stop/terminate, S3, HTTP, the filesystem)
are modelled as explicit inputs: a world of instances, maps from paths to
modification times, and environments recording which of the fallible steps
succeed.  Control flow, orderings and returned values follow the Python
sources line by line.
-/

namespace CloudRamSaas

/-! ## EC2 instance model (aws_manager.py) -/

/-- EC2 instance state names as reported by describe_instances. -/
inductive InstState where
  | pending
  | running
  | stopping
  | stopped
  | shuttingDown
  | terminated
deriving DecidableEq, Repr

/-- The fields of a describe_instances record that the backend reads. -/
structure Ec2Instance where
  instanceId : String
  state : InstState
  publicIpAddress : Option String
  launchTime : Nat
  tags : List (String × String)
deriving DecidableEq, Repr

/-- AWSManager.USER_TAG_KEY. -/
def USER_TAG_KEY : String := "cloudramsaas_user_id"

/-- The describe_instances tag filter: instance carries the ownership tag. -/
def hasUserTag (userId : String) (i : Ec2Instance) : Bool :=
  i.tags.any fun t => t.1 == USER_TAG_KEY && t.2 == userId

/-- The describe_instances instance-state-name filter used by
find_user_instance: pending, running, stopping, stopped. -/
def stateNameFilter (s : InstState) : Bool :=
  match s with
  | .pending => true
  | .running => true
  | .stopping => true
  | .stopped => true
  | .shuttingDown => false
  | .terminated => false

/-- The candidate list produced by the describe_instances call inside
AWSManager.find_user_instance. -/
def describe_user_instances (userId : String) (world : List Ec2Instance) :
    List Ec2Instance :=
  world.filter fun i => hasUserTag userId i && stateNameFilter i.state

/-- One step of selecting the newest instance.  Folding this over the
candidate list reproduces `instances.sort(key=LaunchTime, reverse=True);
return instances[0]`: Python sort is stable, so the selected element is the
first listed instance among those with the maximal LaunchTime, which is what
keeping the current best on ties computes. -/
def newestFirst (acc : Option Ec2Instance) (i : Ec2Instance) : Option Ec2Instance :=
  match acc with
  | none => some i
  | some b => if b.launchTime < i.launchTime then some i else some b

/-- AWSManager.find_user_instance: empty user id short-circuits to None;
otherwise filter by ownership tag and non-terminal state and return the
newest (maximal LaunchTime) candidate. -/
def find_user_instance (userId : String) (world : List Ec2Instance) :
    Option Ec2Instance :=
  if userId = "" then none
  else (describe_user_instances userId world).foldl newestFirst none

/-! ## Allocate endpoint (main.py allocate_ram) -/

/-- Python truthiness of an optional string (`and ip`): present and nonempty. -/
def truthyStr (s : Option String) : Bool :=
  match s with
  | none => false
  | some v => !(v == "")

/-- The observable outcome of POST /allocate. -/
inductive AllocateResult where
  | unauthorized
  | reuse (vmId : String) (ip : String) (state : InstState)
  | actionRequired (vmId : String) (ip : Option String) (state : InstState)
  | provisioned (vmId : String) (ip : String)
deriving DecidableEq, Repr

/-- AWSManager.create_vm registers a brand-new tagged instance in the world;
the instance AWS hands back is a parameter here. -/
def create_vm_world (world : List Ec2Instance) (fresh : Ec2Instance) :
    List Ec2Instance :=
  world ++ [fresh]

/-- main.py allocate_ram as a state transformer on the instance world:
reuse a running/pending instance with a truthy address unchanged, flag a
stopped/stopping instance with action_required, otherwise provision a new
instance (which is the only branch that changes the world). -/
def allocate_ram (userId : String) (world : List Ec2Instance)
    (fresh : Ec2Instance) : AllocateResult × List Ec2Instance :=
  if userId = "" then (.unauthorized, world)
  else
    match find_user_instance userId world with
    | some existing =>
        if (existing.state = .running ∨ existing.state = .pending) ∧
            truthyStr existing.publicIpAddress = true then
          (.reuse existing.instanceId (existing.publicIpAddress.getD "")
            existing.state, world)
        else if existing.state = .stopped ∨ existing.state = .stopping then
          (.actionRequired existing.instanceId existing.publicIpAddress
            existing.state, world)
        else
          (.provisioned fresh.instanceId (fresh.publicIpAddress.getD ""),
            create_vm_world world fresh)
    | none =>
        (.provisioned fresh.instanceId (fresh.publicIpAddress.getD ""),
          create_vm_world world fresh)

/-- The instance id an allocate outcome refers to. -/
def allocatedVmId : AllocateResult → Option String
  | .unauthorized => none
  | .reuse v _ _ => some v
  | .actionRequired v _ _ => some v
  | .provisioned v _ => some v

/-! ## Stop / terminate endpoints (main.py stop_vm, terminate_vm) -/

/-- Python `a or b` on an optional string: falls back on None and on "". -/
def py_or_str (a : Option String) (b : String) : String :=
  match a with
  | none => b
  | some s => if s = "" then b else s

/-- Observable outcome of the stop/terminate endpoints: which instance id the
AWS action is invoked on, or the error short-circuit. -/
inductive VmEndpointResult where
  | unauthorized
  | notFound
  | acted (targetVmId : String)
deriving DecidableEq, Repr

/-- main.py stop_vm: look up the caller instance (404 when absent), then stop
`req.vm_id or inst["InstanceId"]`. -/
def stop_vm_endpoint (reqVmId : Option String) (userId : String)
    (world : List Ec2Instance) : VmEndpointResult :=
  if userId = "" then .unauthorized
  else
    match find_user_instance userId world with
    | none => .notFound
    | some inst => .acted (py_or_str reqVmId inst.instanceId)

/-- main.py terminate_vm: identical target selection to stop_vm. -/
def terminate_vm_endpoint (reqVmId : Option String) (userId : String)
    (world : List Ec2Instance) : VmEndpointResult :=
  if userId = "" then .unauthorized
  else
    match find_user_instance userId world with
    | none => .notFound
    | some inst => .acted (py_or_str reqVmId inst.instanceId)

/-! ## Shared lemmas about the newest-instance fold -/

/-- Specification of one newestFirst step. -/
theorem newestFirst_spec (acc : Option Ec2Instance) (x : Ec2Instance) :
    ∃ c, newestFirst acc x = some c ∧ (acc = some c ∨ c = x) ∧
      x.launchTime ≤ c.launchTime ∧
      (∀ a, acc = some a → a.launchTime ≤ c.launchTime) := by
  cases acc with
  | none =>
      exact ⟨x, rfl, Or.inr rfl, le_refl _, fun a ha => by cases ha⟩
  | some b =>
      by_cases h : b.launchTime < x.launchTime
      · refine ⟨x, ?_, Or.inr rfl, le_refl _, ?_⟩
        · simp [newestFirst, h]
        · intro a ha
          cases ha
          exact le_of_lt h
      · refine ⟨b, ?_, Or.inl rfl, not_lt.mp h, ?_⟩
        · simp [newestFirst, h]
        · intro a ha
          cases ha
          exact le_refl _

/-- Folding newestFirst yields an element of the accumulator or the list, and
its launch time dominates every list element and the accumulator. -/
theorem foldl_newestFirst_spec (l : List Ec2Instance) :
    ∀ (acc : Option Ec2Instance) (b : Ec2Instance),
      l.foldl newestFirst acc = some b →
      (acc = some b ∨ b ∈ l) ∧
      (∀ a, acc = some a → a.launchTime ≤ b.launchTime) ∧
      (∀ j ∈ l, j.launchTime ≤ b.launchTime) := by
  induction l with
  | nil =>
      intro acc b h
      refine ⟨Or.inl h, ?_, by simp⟩
      intro a ha
      rw [ha] at h
      cases h
      exact le_refl _
  | cons x xs ih =>
      intro acc b h
      simp only [List.foldl_cons] at h
      obtain ⟨c, hc, hcor, hxle, haccle⟩ := newestFirst_spec acc x
      rw [hc] at h
      obtain ⟨hmem, hacc, hall⟩ := ih (some c) b h
      have hcb : c.launchTime ≤ b.launchTime := hacc c rfl
      refine ⟨?_, ?_, ?_⟩
      · rcases hmem with hmem | hmem
        · have hcb' : c = b := by injection hmem
          subst hcb'
          rcases hcor with hcor | hcor
          · exact Or.inl hcor
          · exact Or.inr (by simp [hcor])
        · exact Or.inr (List.mem_cons_of_mem _ hmem)
      · intro a ha
        exact le_trans (haccle a ha) hcb
      · intro j hj
        rcases List.mem_cons.mp hj with hj | hj
        · subst hj
          exact le_trans hxle hcb
        · exact hall j hj

/-- find_user_instance only ever returns a member of the filtered candidate
list, and that member has the maximal launch time among candidates. -/
theorem find_user_instance_spec (userId : String) (world : List Ec2Instance)
    (inst : Ec2Instance) (h : find_user_instance userId world = some inst) :
    inst ∈ describe_user_instances userId world ∧
    ∀ j ∈ describe_user_instances userId world,
      j.launchTime ≤ inst.launchTime := by
  unfold find_user_instance at h
  by_cases hu : userId = ""
  · simp [hu] at h
  · rw [if_neg hu] at h
    obtain ⟨hmem, _, hall⟩ := foldl_newestFirst_spec _ none inst h
    rcases hmem with hmem | hmem
    · cases hmem
    · exact ⟨hmem, hall⟩

/-! ## C1 / C3 theorems -/

/-- C1: for every user, when find_user_instance returns a running or pending
instance with a (truthy) public address, allocate returns exactly that
instance and leaves the world unchanged, so a second allocate call with no
intervening stop or terminate returns the same instance id. -/
theorem allocate_idempotent_reuse (userId : String) (world : List Ec2Instance)
    (ex fresh1 fresh2 : Ec2Instance)
    (hfind : find_user_instance userId world = some ex)
    (hstate : ex.state = .running ∨ ex.state = .pending)
    (hip : truthyStr ex.publicIpAddress = true) :
    allocate_ram userId world fresh1 =
      (.reuse ex.instanceId (ex.publicIpAddress.getD "") ex.state, world) ∧
    allocatedVmId (allocate_ram userId
        (allocate_ram userId world fresh1).2 fresh2).1 = some ex.instanceId := by
  have hu : ¬ userId = "" := by
    intro h
    rw [h] at hfind
    simp [find_user_instance] at hfind
  have hfirst : allocate_ram userId world fresh1 =
      (.reuse ex.instanceId (ex.publicIpAddress.getD "") ex.state, world) := by
    unfold allocate_ram
    rw [if_neg hu, hfind]
    dsimp only
    rw [if_pos ⟨hstate, hip⟩]
  refine ⟨hfirst, ?_⟩
  rw [hfirst]
  unfold allocate_ram
  rw [if_neg hu, hfind]
  dsimp only
  rw [if_pos ⟨hstate, hip⟩]
  rfl

/-- C1 witness: a concrete world with a running tagged instance. -/
theorem allocate_idempotent_reuse_witness :
    find_user_instance "u1"
        [⟨"i-1", .running, some "1.2.3.4", 10, [(USER_TAG_KEY, "u1")]⟩] =
      some ⟨"i-1", .running, some "1.2.3.4", 10, [(USER_TAG_KEY, "u1")]⟩ ∧
    allocate_ram "u1"
        [⟨"i-1", .running, some "1.2.3.4", 10, [(USER_TAG_KEY, "u1")]⟩]
        ⟨"i-9", .running, some "9.9.9.9", 99, [(USER_TAG_KEY, "u1")]⟩ =
      (.reuse "i-1" "1.2.3.4" .running,
        [⟨"i-1", .running, some "1.2.3.4", 10, [(USER_TAG_KEY, "u1")]⟩]) := by
  refine ⟨by decide, ?_⟩
  exact (allocate_idempotent_reuse "u1"
    [⟨"i-1", .running, some "1.2.3.4", 10, [(USER_TAG_KEY, "u1")]⟩]
    ⟨"i-1", .running, some "1.2.3.4", 10, [(USER_TAG_KEY, "u1")]⟩
    ⟨"i-9", .running, some "9.9.9.9", 99, [(USER_TAG_KEY, "u1")]⟩
    ⟨"i-9", .running, some "9.9.9.9", 99, [(USER_TAG_KEY, "u1")]⟩
    (by decide) (Or.inl rfl) (by decide)).1

/-- C3: find_user_instance never returns a terminated instance, and whatever
it returns is a tagged non-terminated candidate whose launch time is maximal
among all tagged non-terminated candidates. -/
theorem find_user_instance_newest_nonterminated (userId : String)
    (world : List Ec2Instance) (inst : Ec2Instance)
    (h : find_user_instance userId world = some inst) :
    inst.state ≠ .terminated ∧
    inst ∈ describe_user_instances userId world ∧
    ∀ j ∈ describe_user_instances userId world,
      j.launchTime ≤ inst.launchTime := by
  obtain ⟨hmem, hall⟩ := find_user_instance_spec userId world inst h
  refine ⟨?_, hmem, hall⟩
  have hf := (List.mem_filter.mp hmem).2
  intro hterm
  rw [hterm] at hf
  simp [stateNameFilter] at hf

/-- C3 witness: two tagged instances, the newer one is returned. -/
theorem find_user_instance_newest_witness :
    find_user_instance "u1"
        [⟨"i-old", .stopped, none, 5, [(USER_TAG_KEY, "u1")]⟩,
         ⟨"i-new", .running, some "1.2.3.4", 10, [(USER_TAG_KEY, "u1")]⟩] =
      some ⟨"i-new", .running, some "1.2.3.4", 10, [(USER_TAG_KEY, "u1")]⟩ ∧
    (⟨"i-new", .running, some "1.2.3.4", 10, [(USER_TAG_KEY, "u1")]⟩ :
        Ec2Instance).state ≠ .terminated := by
  refine ⟨by decide, ?_⟩
  exact (find_user_instance_newest_nonterminated "u1"
    [⟨"i-old", .stopped, none, 5, [(USER_TAG_KEY, "u1")]⟩,
     ⟨"i-new", .running, some "1.2.3.4", 10, [(USER_TAG_KEY, "u1")]⟩]
    ⟨"i-new", .running, some "1.2.3.4", 10, [(USER_TAG_KEY, "u1")]⟩
    (by decide)).1

/-! ## C10 theorem -/

/-- C10: for a user owning at least one non-terminated instance, stop_vm and
terminate_vm act on any caller-supplied nonempty vm_id, with no check that it
belongs to the user; the user instance lookup serves only as existence check
and as default target when vm_id is omitted or empty. -/
theorem stop_terminate_use_caller_vm_id (userId v : String)
    (world : List Ec2Instance) (inst : Ec2Instance)
    (hfind : find_user_instance userId world = some inst)
    (hv : v ≠ "") :
    stop_vm_endpoint (some v) userId world = .acted v ∧
    terminate_vm_endpoint (some v) userId world = .acted v ∧
    stop_vm_endpoint none userId world = .acted inst.instanceId ∧
    terminate_vm_endpoint none userId world = .acted inst.instanceId := by
  have hu : ¬ userId = "" := by
    intro h
    rw [h] at hfind
    simp [find_user_instance] at hfind
  refine ⟨?_, ?_, ?_, ?_⟩ <;>
    simp [stop_vm_endpoint, terminate_vm_endpoint, hu, hfind, py_or_str, hv]

/-- C10 witness: a vm_id belonging to nobody in particular is still the
target the endpoints act on. -/
theorem stop_terminate_use_caller_vm_id_witness :
    find_user_instance "u1"
        [⟨"i-1", .running, some "1.2.3.4", 10, [(USER_TAG_KEY, "u1")]⟩] =
      some ⟨"i-1", .running, some "1.2.3.4", 10, [(USER_TAG_KEY, "u1")]⟩ ∧
    ("i-of-someone-else" : String) ≠ "" ∧
    stop_vm_endpoint (some "i-of-someone-else") "u1"
        [⟨"i-1", .running, some "1.2.3.4", 10, [(USER_TAG_KEY, "u1")]⟩] =
      .acted "i-of-someone-else" := by
  refine ⟨by decide, by decide, ?_⟩
  exact (stop_terminate_use_caller_vm_id "u1" "i-of-someone-else"
    [⟨"i-1", .running, some "1.2.3.4", 10, [(USER_TAG_KEY, "u1")]⟩]
    ⟨"i-1", .running, some "1.2.3.4", 10, [(USER_TAG_KEY, "u1")]⟩
    (by decide) (by decide)).1

/-! ## Pull loop (process_manager.py sync_from_s3) -/

/-- The filesystem and S3 timestamps sync_from_s3 consults.  localMtimes maps
a local path to its modification time when the file exists; s3Mtimes gives
head_object LastModified for a key.  Timestamps are modelled on an integer
timeline; only their ordering is ever used. -/
structure SyncWorld where
  localMtimes : String → Option Int
  s3Mtimes : String → Int

/-- The per-object body of the sync_from_s3 loop, reduced to its observable
decision: true when the object is downloaded over the matching local path.
When the local file exists the code downloads exactly when the remote
LastModified is strictly greater than the local mtime; a missing local file
is always downloaded. -/
def sync_from_s3_downloads (w : SyncWorld) (matchingFile s3Key : String) :
    Bool :=
  match w.localMtimes matchingFile with
  | some localMtime => decide (w.s3Mtimes s3Key > localMtime)
  | none => true

/-- C4: with a local counterpart of mtime T_l and remote last-modified T_r,
the pull loop downloads the object iff T_r > T_l strictly; in particular
equal timestamps never trigger a download. -/
theorem sync_from_s3_strictly_newer (w : SyncWorld) (matchingFile s3Key : String)
    (localMtime : Int)
    (hl : w.localMtimes matchingFile = some localMtime) :
    (sync_from_s3_downloads w matchingFile s3Key = true ↔
      w.s3Mtimes s3Key > localMtime) ∧
    (w.s3Mtimes s3Key = localMtime →
      sync_from_s3_downloads w matchingFile s3Key = false) := by
  constructor
  · simp [sync_from_s3_downloads, hl]
  · intro heq
    simp [sync_from_s3_downloads, hl, heq]

/-- C4 witness: equal timestamps on a concrete world keep the local copy. -/
theorem sync_from_s3_strictly_newer_witness :
    (SyncWorld.mk (fun _ => some 7) (fun _ => 7)).localMtimes "a.txt" =
      some 7 ∧
    sync_from_s3_downloads
      (SyncWorld.mk (fun _ => some 7) (fun _ => 7)) "a.txt" "a.txt" = false := by
  refine ⟨rfl, ?_⟩
  exact (sync_from_s3_strictly_newer
    (SyncWorld.mk (fun _ => some 7) (fun _ => 7)) "a.txt" "a.txt" 7 rfl).2 rfl

/-! ## Project root normalization (vm_server.py normalize_extracted_project_root) -/

/-- A top-level entry of the extraction directory as seen by os.listdir,
classified by os.path.isdir / os.path.isfile. -/
inductive DirEntry where
  | subdir (name : String)
  | plainFile (name : String)
deriving DecidableEq, Repr

/-- Name of a listing entry. -/
def entryName : DirEntry → String
  | .subdir n => n
  | .plainFile n => n

/-- Whether a listing entry is a directory. -/
def isSubdir : DirEntry → Bool
  | .subdir _ => true
  | .plainFile _ => false

/-- os.path.join on the agent host. -/
def joinPath (a b : String) : String := a ++ "\\" ++ b

/-- The listing with the "." and ".." pseudo-entries dropped, as in the
source comprehension. -/
def realEntries (listing : List DirEntry) : List DirEntry :=
  listing.filter fun x => !(entryName x == ".") && !(entryName x == "..")

/-- vm_server.py normalize_extracted_project_root: if the (filtered) listing
of the extraction directory holds exactly one directory and no files, that
inner directory is the project root; otherwise the extraction directory
itself is. -/
def normalize_extracted_project_root (destProjectDir : String)
    (listing : List DirEntry) : String :=
  let items := realEntries listing
  let dirs := items.filter isSubdir
  let files := items.filter fun x => !(isSubdir x)
  match dirs, files with
  | [d], [] => joinPath destProjectDir (entryName d)
  | _, _ => destProjectDir

/-- C5: when the sole top-level entry of the extraction result is a
directory, the resolved project root is that inner directory; when the
listing does not consist of exactly one directory and no files, the
extraction directory itself is the root; and resolution is a pure function
of the listing, hence deterministic. -/
theorem normalize_root_resolution (destProjectDir : String)
    (listing : List DirEntry) :
    (∀ d, realEntries listing = [DirEntry.subdir d] →
      normalize_extracted_project_root destProjectDir listing =
        joinPath destProjectDir d) ∧
    (((realEntries listing).filter isSubdir).length ≠ 1 ∨
        (realEntries listing).filter (fun x => !(isSubdir x)) ≠ [] →
      normalize_extracted_project_root destProjectDir listing =
        destProjectDir) ∧
    (∀ listing2, realEntries listing = realEntries listing2 →
      normalize_extracted_project_root destProjectDir listing =
        normalize_extracted_project_root destProjectDir listing2) := by
  refine ⟨?_, ?_, ?_⟩
  · intro d hsole
    unfold normalize_extracted_project_root
    rw [hsole]
    rfl
  · intro hshape
    unfold normalize_extracted_project_root
    dsimp only
    rcases hdirs : (realEntries listing).filter isSubdir with _ | ⟨d, _ | ⟨d2, ds⟩⟩ <;>
      rcases hfiles : (realEntries listing).filter (fun x => !(isSubdir x)) with _ | ⟨f, fs⟩
    all_goals try rfl
    rcases hshape with h | h
    · rw [hdirs] at h
      exact absurd rfl h
    · exact absurd hfiles h
  · intro listing2 hsame
    unfold normalize_extracted_project_root
    rw [hsame]

/-- C5 witness: an archive whose extraction yields the single top-level
directory myapp resolves to that inner directory; one with a file beside it
resolves to the extraction directory itself. -/
theorem normalize_root_resolution_witness :
    realEntries [DirEntry.subdir "myapp"] = [DirEntry.subdir "myapp"] ∧
    normalize_extracted_project_root "C:\\proj" [DirEntry.subdir "myapp"] =
      joinPath "C:\\proj" "myapp" ∧
    normalize_extracted_project_root "C:\\proj"
      [DirEntry.subdir "myapp", DirEntry.plainFile "readme.md"] = "C:\\proj" := by
  refine ⟨by decide, ?_, ?_⟩
  · exact (normalize_root_resolution "C:\\proj" [DirEntry.subdir "myapp"]).1
      "myapp" (by decide)
  · exact (normalize_root_resolution "C:\\proj"
      [DirEntry.subdir "myapp", DirEntry.plainFile "readme.md"]).2.1
      (Or.inr (by decide))

/-! ## Tracked files (process_manager.py) -/

/-- The tracked-file state: the in-memory set self.tracked_files and the
lines of the durable on-disk record at self.file_record_path. -/
structure TrackedState where
  tracked_files : List String
  file_record : List String
deriving DecidableEq, Repr

/-- process_manager.py _update_tracked_file_list: read the previous on-disk
lines, union them with the current set, and write the union back sorted.
Note the union: entries present on disk are never dropped by this routine. -/
def update_tracked_file_list (current_files : List String)
    (disk : List String) : List String :=
  ((disk ++ current_files).eraseDups).insertionSort (fun a b => a ≤ b)

/-- process_manager.py remove_tracked_file: drop the path from the in-memory
set when present, then persist via update_tracked_file_list; returns whether
the path was tracked. -/
def remove_tracked_file (st : TrackedState) (file_path : String) :
    Bool × TrackedState :=
  if file_path ∈ st.tracked_files then
    let newTracked := st.tracked_files.erase file_path
    (true,
      { tracked_files := newTracked,
        file_record := update_tracked_file_list newTracked st.file_record })
  else (false, st)

/-- C6 evaluation: untracking a tracked file removes it from the in-memory
set, yet the persisted record written by the operation still contains it,
because update_tracked_file_list unions the new set with the previous
on-disk lines. -/
theorem remove_tracked_file_record_keeps_entry :
    (remove_tracked_file ⟨["a.txt"], ["a.txt"]⟩ "a.txt").1 = true ∧
    "a.txt" ∉
      (remove_tracked_file ⟨["a.txt"], ["a.txt"]⟩ "a.txt").2.tracked_files ∧
    "a.txt" ∈
      (remove_tracked_file ⟨["a.txt"], ["a.txt"]⟩ "a.txt").2.file_record := by
  decide

/-! ## Remote agent job table (vm_server.py) -/

/-- One record of the vscode_jobs table, as created by setup_vscode and
mutated by its background worker. -/
structure VscodeJob where
  status : String
  message : String
  user_id : String
  project_name : String
  started_at : String
  finished_at : Option String
deriving DecidableEq, Repr

/-- The agent's process-local job table vscode_jobs, keyed by job_id. -/
abbrev VscodeJobs := List (String × VscodeJob)

/-- The two possible bodies of GET /vscode_setup_status/{job_id}: a 404
error for an unknown id, or the stored record verbatim. -/
inductive JobStatusReply where
  | notFound
  | ok (job : VscodeJob)
deriving DecidableEq, Repr

/-- vm_server.py vscode_setup_status: a dict .get on the job table; the
handler performs no write, so the table is returned unchanged. -/
def vscode_setup_status (jobs : VscodeJobs) (job_id : String) :
    JobStatusReply × VscodeJobs :=
  match jobs.lookup job_id with
  | none => (.notFound, jobs)
  | some job => (.ok job, jobs)

/-! ## Backend polling loop (main.py vscode_setup_on_vm) -/

/-- The outcome the backend endpoint reports after polling the agent. -/
inductive SetupPollOutcome where
  | finished (job_id : String)
  | failed (message : String)
  | timedOut (job_id : String)
deriving DecidableEq, Repr

/-- The polling loop of main.py vscode_setup_on_vm, threading the agent job
table through every status read: on a 200 reply act on done/error, on any
other reply just keep polling; when the attempt budget runs out, report the
timeout body.  The fuel argument is the remaining attempts (60 at entry). -/
def vscode_setup_poll (job_id : String) : Nat → VscodeJobs →
    SetupPollOutcome × VscodeJobs
  | 0, jobs => (.timedOut job_id, jobs)
  | Nat.succ n, jobs =>
    match vscode_setup_status jobs job_id with
    | (.ok j, jobs1) =>
      if j.status = "done" then (.finished job_id, jobs1)
      else if j.status = "error" then (.failed j.message, jobs1)
      else vscode_setup_poll job_id n jobs1
    | (.notFound, jobs1) => vscode_setup_poll job_id n jobs1

/-- When the stored job stays at status running, the poller consumes all its
fuel without changing the table and reports the timeout. -/
theorem vscode_setup_poll_running (job_id : String) (jobs : VscodeJobs)
    (j : VscodeJob) (hj : jobs.lookup job_id = some j)
    (hrun : j.status = "running") :
    ∀ n, vscode_setup_poll job_id n jobs = (.timedOut job_id, jobs) := by
  intro n
  induction n with
  | zero => rfl
  | succ n ih =>
      unfold vscode_setup_poll
      unfold vscode_setup_status
      rw [hj]
      dsimp only
      rw [hrun]
      exact ih

/-- C7: if every one of the 60 polling attempts sees the job still running,
the caller receives the timeout outcome, and the job record is untouched by
the polling: the table is unchanged and the record still reads running. -/
theorem poll_timeout_leaves_job_running (job_id : String) (jobs : VscodeJobs)
    (j : VscodeJob) (hj : jobs.lookup job_id = some j)
    (hrun : j.status = "running") :
    vscode_setup_poll job_id 60 jobs = (.timedOut job_id, jobs) ∧
    (vscode_setup_poll job_id 60 jobs).2.lookup job_id = some j ∧
    j.status = "running" := by
  have h := vscode_setup_poll_running job_id jobs j hj hrun 60
  exact ⟨h, by rw [h]; exact hj, hrun⟩

/-- C7 witness: a one-job table stuck at running times out unchanged. -/
theorem poll_timeout_leaves_job_running_witness :
    ([("job-1", ⟨"running", "Starting VSCode setup...", "u1", "proj",
        "t0", none⟩)] : VscodeJobs).lookup "job-1" =
      some ⟨"running", "Starting VSCode setup...", "u1", "proj", "t0", none⟩ ∧
    vscode_setup_poll "job-1" 60
        [("job-1", ⟨"running", "Starting VSCode setup...", "u1", "proj",
          "t0", none⟩)] =
      (.timedOut "job-1",
        [("job-1", ⟨"running", "Starting VSCode setup...", "u1", "proj",
          "t0", none⟩)]) := by
  refine ⟨by decide, ?_⟩
  exact (poll_timeout_leaves_job_running "job-1"
    [("job-1", ⟨"running", "Starting VSCode setup...", "u1", "proj",
      "t0", none⟩)]
    ⟨"running", "Starting VSCode setup...", "u1", "proj", "t0", none⟩
    (by decide) rfl).1

/-- C9: an unknown job_id yields the 404 reply, never a status value; a
known job_id yields the stored record verbatim; and in both cases the
status read leaves the job table exactly as it was. -/
theorem vscode_setup_status_pure_read (jobs : VscodeJobs) (job_id : String) :
    (jobs.lookup job_id = none →
      vscode_setup_status jobs job_id = (.notFound, jobs)) ∧
    (∀ j, jobs.lookup job_id = some j →
      vscode_setup_status jobs job_id = (.ok j, jobs)) := by
  constructor
  · intro h
    unfold vscode_setup_status
    rw [h]
  · intro j h
    unfold vscode_setup_status
    rw [h]

/-- C9 witness: concrete reads of a known and an unknown job id. -/
theorem vscode_setup_status_pure_read_witness :
    ([("job-1", ⟨"done", "VSCode opened", "u1", "proj", "t0", some "t1"⟩)] :
        VscodeJobs).lookup "nope" = none ∧
    vscode_setup_status
        [("job-1", ⟨"done", "VSCode opened", "u1", "proj", "t0", some "t1"⟩)]
        "nope" =
      (.notFound,
        [("job-1", ⟨"done", "VSCode opened", "u1", "proj", "t0", some "t1"⟩)]) ∧
    vscode_setup_status
        [("job-1", ⟨"done", "VSCode opened", "u1", "proj", "t0", some "t1"⟩)]
        "job-1" =
      (.ok ⟨"done", "VSCode opened", "u1", "proj", "t0", some "t1"⟩,
        [("job-1", ⟨"done", "VSCode opened", "u1", "proj", "t0", some "t1"⟩)]) := by
  refine ⟨by decide, ?_, ?_⟩
  · exact (vscode_setup_status_pure_read
      [("job-1", ⟨"done", "VSCode opened", "u1", "proj", "t0", some "t1"⟩)]
      "nope").1 (by decide)
  · exact (vscode_setup_status_pure_read
      [("job-1", ⟨"done", "VSCode opened", "u1", "proj", "t0", some "t1"⟩)]
      "job-1").2
      ⟨"done", "VSCode opened", "u1", "proj", "t0", some "t1"⟩ (by decide)

/-! ## Dependency capture cascade (process_manager.py _make_dep_bundle) -/

/-- The environment the cascade probes: which files exist in the project
directory and what the two subprocess strategies return (ok with their
stdout, or error with the raised exception text). -/
structure DepCaptureEnv where
  requirements_exists : Bool
  pyproject_exists : Bool
  venv_python_exists : Bool
  poetry_export : Except String String
  pip_freeze : Except String String
deriving Repr

/-- The interpreter the pip-freeze fallback runs: the project venv python
when present, the bare python otherwise. -/
def best_python (env : DepCaptureEnv) : String :=
  if env.venv_python_exists then ".venv\\Scripts\\python.exe" else "python"

/-- The metadata dict _make_dep_bundle writes to deps_meta.json, with each
optional key modelled as an Option. -/
structure DepMeta where
  strategy : Option String
  error : Option String
  warning : Option String
  python_used : Option String
deriving DecidableEq, Repr

/-- process_manager.py _make_dep_bundle, metadata part: strategy starts as
None; a requirements.txt claims it first, else a pyproject.toml tries poetry
export (recording a warning on failure); whenever the strategy is still None
or the export failed, pip freeze runs and records either pip_freeze or
failed plus the error text. -/
def make_dep_bundle_meta (env : DepCaptureEnv) : DepMeta :=
  let meta0 : DepMeta := ⟨none, none, none, none⟩
  let meta1 :=
    if env.requirements_exists then
      { meta0 with strategy := some "requirements.txt" }
    else if env.pyproject_exists then
      match env.poetry_export with
      | .ok _ => { meta0 with strategy := some "poetry_export" }
      | .error e =>
          { meta0 with
              strategy := some "pyproject_present_but_export_failed",
              warning := some e }
    else meta0
  if meta1.strategy = none ∨
      meta1.strategy = some "pyproject_present_but_export_failed" then
    match env.pip_freeze with
    | .ok _ =>
        { meta1 with
            strategy := some "pip_freeze",
            python_used := some (best_python env) }
    | .error e =>
        { meta1 with
            strategy := some "failed",
            error := some e,
            python_used := some (best_python env) }
  else meta1

/-- C8: the cascade always records a strategy (the field is never left
unset), and when every strategy fails — no manifest file, poetry export
absent or failed, pip freeze failed — the recorded strategy is failed and an
error field is present. -/
theorem make_dep_bundle_strategy_total (env : DepCaptureEnv) :
    (make_dep_bundle_meta env).strategy ≠ none ∧
    (env.requirements_exists = false →
      (env.pyproject_exists = false ∨ ∃ e, env.poetry_export = .error e) →
      (∃ e, env.pip_freeze = .error e) →
      (make_dep_bundle_meta env).strategy = some "failed" ∧
      (make_dep_bundle_meta env).error ≠ none) := by
  constructor
  · rcases env with ⟨req, pyp, venv, poe, pip⟩
    cases req <;> cases pyp <;> cases poe <;> cases pip <;>
      simp [make_dep_bundle_meta]
  · rintro hreq hpoe ⟨e, hpip⟩
    rcases env with ⟨req, pyp, venv, poe, pip⟩
    dsimp only at hreq hpip
    subst hreq hpip
    rcases hpoe with hpyp | ⟨e2, hpoe⟩
    · dsimp only at hpyp
      subst hpyp
      simp [make_dep_bundle_meta]
    · dsimp only at hpoe
      subst hpoe
      cases pyp <;> simp [make_dep_bundle_meta]

/-- C8 witness: with no manifest, failing poetry export and failing pip
freeze, the recorded strategy is failed with the error text attached. -/
theorem make_dep_bundle_strategy_total_witness :
    ((⟨false, true, false, .error "poetry missing",
        .error "pip exploded"⟩ : DepCaptureEnv).requirements_exists = false) ∧
    make_dep_bundle_meta
        ⟨false, true, false, .error "poetry missing", .error "pip exploded"⟩ =
      ⟨some "failed", some "pip exploded", some "poetry missing",
        some "python"⟩ ∧
    (make_dep_bundle_meta
        ⟨false, true, false, .error "poetry missing",
          .error "pip exploded"⟩).strategy = some "failed" := by
  refine ⟨rfl, by decide, ?_⟩
  exact (make_dep_bundle_strategy_total
    ⟨false, true, false, .error "poetry missing", .error "pip exploded"⟩).2
    rfl (Or.inr ⟨"poetry missing", rfl⟩) ⟨"pip exploded", rfl⟩ |>.1

/-! ## Migration pipeline ordering (process_manager.py migrate_vscode_project) -/

/-- The externally visible actions of migrate_vscode_project, in the order
the method performs them. -/
inductive MigEvent where
  | detectOpenPath
  | zipProject
  | zipConfig
  | makeDepBundle
  | uploadArtifacts
  | killLocalVscode
  | submitSetupJob
  | pollJobStatus
  | remoteDone
deriving DecidableEq, Repr

/-- What the POST to the agent setup endpoint came back with. -/
inductive SubmitReply where
  | unreachable
  | httpErrorCode (code : Nat)
  | okNoJobId
  | accepted (job_id : String)
deriving DecidableEq, Repr

/-- The environment migrate_vscode_project runs against: whether detection
finds an open path, whether each packaging and upload stage succeeds, the
reply to the job submission, and the status the agent reports on poll
attempt i (none modelling a non-200 reply). -/
structure MigrateEnv where
  detect_result : Option (String × String)
  zip_project_ok : Bool
  zip_config_ok : Bool
  dep_bundle_ok : Bool
  upload_ok : Bool
  submit_reply : SubmitReply
  status_replies : Nat → Option String

/-- Final outcome of the migration call: the success flag and error text of
the returned triple. -/
structure MigrateOutcome where
  success : Bool
  errorText : Option String
deriving DecidableEq, Repr

/-- The polling tail of migrate_vscode_project (up to 60 status reads):
events emitted and the outcome.  attempt is the index of the next read,
fuel the remaining budget. -/
def migrate_poll (statusOf : Nat → Option String) (attempt : Nat) :
    Nat → List MigEvent × MigrateOutcome
  | 0 => ([], ⟨false, some "Timed out waiting for VM to finish VSCode setup."⟩)
  | Nat.succ fuel =>
    match statusOf attempt with
    | some s =>
      if s = "done" then ([.pollJobStatus, .remoteDone], ⟨true, none⟩)
      else if s = "error" then ([.pollJobStatus], ⟨false, some "VM setup error"⟩)
      else
        let rest := migrate_poll statusOf (attempt + 1) fuel
        (.pollJobStatus :: rest.1, rest.2)
    | none =>
        let rest := migrate_poll statusOf (attempt + 1) fuel
        (.pollJobStatus :: rest.1, rest.2)

/-- process_manager.py migrate_vscode_project as the sequence of actions it
performs: detect, zip project, zip config, build the dependency bundle,
upload to S3, then taskkill the local Code.exe, then POST the setup job to
the agent and poll its status.  Every failing stage ends the trace at that
stage with the corresponding error return. -/
def migrate_vscode_project (env : MigrateEnv) :
    List MigEvent × MigrateOutcome :=
  match env.detect_result with
  | none =>
      ([.detectOpenPath],
        ⟨false, some "could not detect an open folder or workspace"⟩)
  | some _ =>
    if env.zip_project_ok = false then
      ([.detectOpenPath, .zipProject],
        ⟨false, some "Failed to zip VSCode project"⟩)
    else if env.zip_config_ok = false then
      ([.detectOpenPath, .zipProject, .zipConfig],
        ⟨false, some "Failed to bundle VSCode config"⟩)
    else if env.dep_bundle_ok = false then
      ([.detectOpenPath, .zipProject, .zipConfig, .makeDepBundle],
        ⟨false, some "Failed to generate dependency bundle"⟩)
    else if env.upload_ok = false then
      ([.detectOpenPath, .zipProject, .zipConfig, .makeDepBundle,
          .uploadArtifacts],
        ⟨false, some "S3 upload failed"⟩)
    else
      let eventsBeforePoll : List MigEvent :=
        [.detectOpenPath, .zipProject, .zipConfig, .makeDepBundle,
          .uploadArtifacts, .killLocalVscode, .submitSetupJob]
      match env.submit_reply with
      | .unreachable =>
          (eventsBeforePoll, ⟨false, some "Could not contact VM"⟩)
      | .httpErrorCode _ =>
          (eventsBeforePoll, ⟨false, some "VM setup_vscode failed"⟩)
      | .okNoJobId =>
          (eventsBeforePoll, ⟨false, some "VM did not return job_id."⟩)
      | .accepted _ =>
          let rest := migrate_poll env.status_replies 0 60
          (eventsBeforePoll ++ rest.1, rest.2)

/-- The ordering property C2 asserts of a migration trace: whenever the
local VSCode process is killed, the remote done confirmation (and in
particular the job submission) has already happened earlier in the trace. -/
def killOnlyAfterRemoteDone (events : List MigEvent) : Prop :=
  MigEvent.killLocalVscode ∈ events →
    MigEvent.remoteDone ∈ events ∧
    events.indexOf MigEvent.remoteDone <
      events.indexOf MigEvent.killLocalVscode ∧
    events.indexOf MigEvent.submitSetupJob <
      events.indexOf MigEvent.killLocalVscode

/-- A fully successful migration run: detection succeeds, every stage
succeeds, the agent accepts the job and reports done on the first poll. -/
def migrateEnvAllOk : MigrateEnv :=
  ⟨some ("C:\\work\\myapp", "folder"), true, true, true, true,
    .accepted "job-1", fun _ => some "done"⟩

/-- C2 counterexample: on a fully successful migration the local Code.exe
is killed at position 5 of the trace, before the submission at position 6
and before the done confirmation at position 8, so the claimed ordering is
violated on this concrete run. -/
theorem migrate_kills_vscode_early_counterexample :
    ¬ killOnlyAfterRemoteDone (migrate_vscode_project migrateEnvAllOk).1 := by
  intro h
  have hk : MigEvent.killLocalVscode ∈
      (migrate_vscode_project migrateEnvAllOk).1 := by decide
  have := (h hk).2.2
  revert this
  decide

/-- C2 amended: whenever the migration reaches the point of closing the
local VSCode process, the kill happens directly after the S3 upload of the
bundle and before the job submission to the agent (and hence before any
remote confirmation), for every environment. -/
theorem migrate_kills_vscode_after_upload_before_submit (env : MigrateEnv)
    (h : MigEvent.killLocalVscode ∈ (migrate_vscode_project env).1) :
    ∃ tail, (migrate_vscode_project env).1 =
      [.detectOpenPath, .zipProject, .zipConfig, .makeDepBundle,
        .uploadArtifacts, .killLocalVscode, .submitSetupJob] ++ tail := by
  rcases env with ⟨det, zp, zc, dep, up, sub, st⟩
  cases det with
  | none => simp [migrate_vscode_project] at h
  | some p =>
      cases zp with
      | false => simp [migrate_vscode_project] at h
      | true =>
        cases zc with
        | false => simp [migrate_vscode_project] at h
        | true =>
          cases dep with
          | false => simp [migrate_vscode_project] at h
          | true =>
            cases up with
            | false => simp [migrate_vscode_project] at h
            | true =>
              cases sub with
              | unreachable => exact ⟨[], rfl⟩
              | httpErrorCode c => exact ⟨[], rfl⟩
              | okNoJobId => exact ⟨[], rfl⟩
              | accepted jid =>
                  exact ⟨(migrate_poll st 0 60).1, rfl⟩

/-- C2 amended witness: the fully successful run exhibits the fixed order
with the polling tail after the submission. -/
theorem migrate_kills_vscode_order_witness :
    MigEvent.killLocalVscode ∈ (migrate_vscode_project migrateEnvAllOk).1 ∧
    ∃ tail, (migrate_vscode_project migrateEnvAllOk).1 =
      [.detectOpenPath, .zipProject, .zipConfig, .makeDepBundle,
        .uploadArtifacts, .killLocalVscode, .submitSetupJob] ++ tail := by
  refine ⟨by decide, ?_⟩
  exact migrate_kills_vscode_after_upload_before_submit migrateEnvAllOk
    (by decide)

end CloudRamSaas
